import Mathlib

/-!
# Verification of the LTV model-fitting engine

A shallow embedding, over exact real arithmetic, of the customer-lifetime-value
retention-model library (models.py): the abstract model contract (survivor and
churn-probability generators plus the derived predicted_survival and
survival_rates), the single- and multi-cohort log-likelihood objectives, the
data preprocessor, the bounded-optimizer result validation, the fit
orchestrator, and the two concrete models (shifted-beta-geometric and
beta-discrete-Weibull).

Numeric conventions of the embedding:
* Python floats become real numbers; numpy log, exp and scipy gammaln become
  Real.log, Real.exp and Real.log of Real.Gamma (gammaln agrees with
  log of Gamma on the positive arguments used here).
* Python list indexing a[i] becomes List.getD i 0 (the claims only exercise
  in-range indices, where the two agree), a[-1] becomes List.getLastD 0, and
  a[0] on a possibly-empty list is modelled by the error case of Except where
  Python would raise IndexError.
* The scipy.optimize.minimize call is an external collaborator (spec section 6);
  the fit pipeline is therefore parameterised by the OptimizeResult the
  minimizer returned, and the validation logic applied to it is embedded.
-/

open scoped Classical

/-- The interface of an LTV model: the survivor function S and the
churn-probability generator, both taking the parameter vector.
(The optional precomputed-probabilities argument of survivor defaults to
None in every call site covered by the claims, so it is not modelled.) -/
structure LTVModel where
  survivor : ℕ → List ℝ → ℝ
  generate_probabilities : ℕ → List ℝ → List ℝ

/-- Derived method of the base class:
predicted_survival(periods, params) is the list
[survivor(0, params), ..., survivor(periods - 1, params)]. -/
def LTVModel.predicted_survival (M : LTVModel) (periods : ℕ) (params : List ℝ) : List ℝ :=
  (List.range periods).map (fun i => M.survivor i params)

/-- Derived method of the base class (independent of the model fields):
survival_rates(data) is the list
[1 - data[0]] ++ [data[i-1] - data[i] for i in 1..len(data)-1].
The consecutive differences are rendered as zipWith over data and its tail.
Python raises IndexError on empty data; the claims only apply this to
non-empty lists, where headI is data[0]. -/
def LTVModel.survival_rates (data : List ℝ) : List ℝ :=
  (1 - data.headI) :: List.zipWith (fun a b => a - b) data data.tail

/-- log_likelihood(params, data, survivors): the single-cohort objective.
Guard clause: if any parameter is non-positive, return -1000.
Otherwise survivors defaults to survival_rates(data) when not supplied,
probabilities = generate_probabilities(len(data), params), and the result is
the comprehension sum over enumerate(survivors) of s * log(probabilities[t])
plus data[-1] * log(survivor(len(data) - 1, params)). -/
noncomputable def LTVModel.log_likelihood (M : LTVModel) (params : List ℝ)
    (data : List ℝ) (survivorsOpt : Option (List ℝ)) : ℝ :=
  if ∃ p ∈ params, p ≤ 0 then -1000
  else
    ((List.range (survivorsOpt.getD (LTVModel.survival_rates data)).length).map
        (fun t => (survivorsOpt.getD (LTVModel.survival_rates data)).getD t 0
          * Real.log ((M.generate_probabilities data.length params).getD t 0))).sum
      + data.getLastD 0 * Real.log (M.survivor (data.length - 1) params)

/-- log_likelihood_multi_cohort(params, data): the multi-cohort objective.
Guard clause: if any parameter is non-positive, return -1000.
Otherwise probabilities = generate_probabilities(len(data[0]), params) is
computed once, cohorts = len(data), and the loop accumulates, per cohort i,
the sum over j in 0..len(cohort)-2 of
(cohort[j] - cohort[j+1]) * log(probabilities[j]),
plus cohort[-1] * log(survivor(cohorts - i - 1, params)). -/
noncomputable def LTVModel.log_likelihood_multi_cohort (M : LTVModel) (params : List ℝ)
    (data : List (List ℝ)) : ℝ :=
  if ∃ p ∈ params, p ≤ 0 then -1000
  else
    ((List.range data.length).map (fun i =>
      ((List.range ((data.getD i []).length - 1)).map
          (fun j => ((data.getD i []).getD j 0 - (data.getD i []).getD (j + 1) 0)
            * Real.log ((M.generate_probabilities (data.headI).length params).getD j 0))).sum
        + (data.getD i []).getLastD 0
          * Real.log (M.survivor (data.length - i - 1) params))).sum

/-- The comparison numpy.isclose performs elementwise, with its default
tolerances rtol = 1e-5 and atol = 1e-8: abs (a - b) <= atol + rtol * abs b. -/
def np_isclose (a b : ℝ) : Prop :=
  |a - b| ≤ 1e-8 + 1e-5 * |b|

/-- The fields of the scipy.optimize.minimize result that the code reads:
the fitted parameter vector x, the integer exit status, and the final
objective value fun (renamed fun_val, fun being reserved). -/
structure OptimizeResult where
  x : List ℝ
  status : ℤ
  fun_val : ℝ

/-- Message of the exception optimize raises on a boundary-degenerate fit. -/
def boundFailMsg : String := "Optimization Failed: Found parameters are inappropriate."

/-- Message of the exception fit raises on a non-zero optimizer exit status. -/
def statusFailMsg : String := "Optimization Failed: optimizer reported a non-zero exit status"

/-- Message Python produces for an IndexError on an empty list. -/
def indexErrMsg : String := "list index out of range"

/-- The validation optimize applies to the minimizer result: if any component
of res.x is numerically close (numpy.isclose) to its lower bound bounds[i][0]
or its upper bound bounds[i][1], raise; otherwise pass the result through. -/
noncomputable def LTVModel.optimize_check (bounds : List (ℝ × ℝ)) (res : OptimizeResult) :
    Except String OptimizeResult :=
  if ∃ i < bounds.length,
      np_isclose (res.x.getD i 0) (bounds.getD i (0, 0)).1
        ∨ np_isclose (res.x.getD i 0) (bounds.getD i (0, 0)).2 then
    Except.error boundFailMsg
  else Except.ok res

/-- Caller input to fit: either a flat numeric sequence or a nested sequence
of cohorts (the hasattr iterability test of the Python code is rendered by
this sum type). -/
inductive DataInput where
  | flat (values : List ℝ)
  | nested (cohorts : List (List ℝ))

/-- The flat (1D) branch of preprocess_data:
if data[0] > 1, divide every element by data[0] and drop the first element;
if data[0] == 1, drop the first element; otherwise return data unchanged. -/
noncomputable def LTVModel.preprocess_flat (data : List ℝ) : List ℝ :=
  if 1 < data.headI then (data.map (fun x => x / data.headI)).tail
  else if data.headI = 1 then data.tail
  else data

/-- preprocess_data: a nested input of exactly one cohort is flattened and then
processed as 1D; any other nested input is returned unchanged; a flat input is
processed by the 1D branch. Accessing data[0] on an empty list raises
IndexError in Python, modelled by the error case. -/
noncomputable def LTVModel.preprocess_data : DataInput → Except String DataInput
  | DataInput.flat [] => Except.error indexErrMsg
  | DataInput.flat (d :: rest) => Except.ok (DataInput.flat (LTVModel.preprocess_flat (d :: rest)))
  | DataInput.nested [] => Except.error indexErrMsg
  | DataInput.nested [c] =>
      if c.isEmpty then Except.error indexErrMsg
      else Except.ok (DataInput.flat (LTVModel.preprocess_flat c))
  | DataInput.nested cs => Except.ok (DataInput.nested cs)

/-- The dictionary fit returns: one (name, value) entry per model parameter,
the retention curve, and the loss. -/
structure FitResult where
  params : List (String × ℝ)
  retention_curve : List ℝ
  loss : ℝ

/-- The fit pipeline, parameterised by the result res the external bounded
minimizer returned (spec section 6 lists the minimizer as a collaborator that
is consumed, not re-implemented): preprocess the data, apply the
boundary-proximity validation of optimize to res, raise on a non-zero exit
status, and otherwise assemble the result dictionary
{name: value for name, value in zip(param_names, res.x)} together with
retention_curve = [1] + predicted_survival(periods, res.x) and
loss = res.fun.  periods is an Int and range(periods) is empty for
periods <= 0, rendered by Int.toNat. -/
noncomputable def LTVModel.fit_from (M : LTVModel) (param_names : List String)
    (bounds : List (ℝ × ℝ)) (data : DataInput) (periods : ℤ) (res : OptimizeResult) :
    Except String FitResult :=
  match LTVModel.preprocess_data data with
  | Except.error e => Except.error e
  | Except.ok _ =>
    match LTVModel.optimize_check bounds res with
    | Except.error e => Except.error e
    | Except.ok r =>
      if r.status ≠ 0 then Except.error statusFailMsg
      else Except.ok
        { params := param_names.zip r.x,
          retention_curve := 1 :: M.predicted_survival periods.toNat r.x,
          loss := r.fun_val }

/-- The objective closure optimize builds over the preprocessed data before
calling the minimizer: for multi-cohort data the negated multi-cohort
log-likelihood, otherwise the negated single-cohort log-likelihood with the
survivors precomputed once via survival_rates and passed in. -/
noncomputable def LTVModel.optimize_objective (M : LTVModel) (pdata : DataInput)
    (x : List ℝ) : ℝ :=
  match pdata with
  | DataInput.flat d => -(M.log_likelihood x d (some (LTVModel.survival_rates d)))
  | DataInput.nested ds => -(M.log_likelihood_multi_cohort x ds)

/-- The churn-probability recurrence of the shifted-beta-geometric model,
indexed from 0: p 0 = alpha / (alpha + beta), and the loop body
p[t] = (beta + t - 1) / (alpha + beta + t) * p[t-1] for t >= 1 becomes, at
index t + 1, p (t+1) = (beta + t) / (alpha + beta + (t + 1)) * p t. -/
noncomputable def sbg_p (α β : ℝ) : ℕ → ℝ
  | 0 => α / (α + β)
  | t + 1 => (β + (t : ℝ)) / (α + β + ((t : ℝ) + 1)) * sbg_p α β t

/-- The parameter names of the SBG model. -/
def SBGModel.param_names : List String := ["alpha", "beta"]

/-- The declared bounds of the SBG parameters. -/
def SBGModel.bounds : List (ℝ × ℝ) := [(0.0001, 10000), (0.0001, 10000)]

/-- SBG generate_probabilities(periods, params): the Python loop starts from
the singleton [p 0] and appends p t for t in 1..periods-1, producing
[p 0, ..., p (periods - 1)] for periods >= 1 (and [p 0] when periods = 0,
whence the max with 1). -/
noncomputable def SBGModel.generate_probabilities (periods : ℕ) (α β : ℝ) : List ℝ :=
  (List.range (max periods 1)).map (sbg_p α β)

/-- SBG survivor(t, params) with no precomputed probabilities: generate the
probabilities for t + 1 periods and subtract every entry of that
length-(t+1) list from 1, i.e. 1 minus its sum. -/
noncomputable def SBGModel.survivor (t : ℕ) (α β : ℝ) : ℝ :=
  1 - (SBGModel.generate_probabilities (t + 1) α β).sum

/-- The SBG model packaged against the abstract interface; the Python
method unpacks alpha, beta = params. -/
noncomputable def SBGModel.model : LTVModel where
  survivor := fun t params => SBGModel.survivor t (params.getD 0 0) (params.getD 1 0)
  generate_probabilities := fun periods params =>
    SBGModel.generate_probabilities periods (params.getD 0 0) (params.getD 1 0)

/-- The parameter names of the BDW model. -/
def BDWModel.param_names : List String := ["alpha", "beta", "c"]

/-- The declared bounds of the BDW parameters. -/
def BDWModel.bounds : List (ℝ × ℝ) := [(0.0001, 10000), (0.0001, 10000), (0.0001, 3)]

/-- BDW survivor(t, params): the closed form
exp(gammaln(alpha+beta) + gammaln(beta + (t+1)^c)
    - gammaln(beta) - gammaln(alpha+beta + (t+1)^c)),
with (t+1)^c a real power and gammaln rendered as log of Gamma (they agree on
the positive arguments arising for positive parameters). -/
noncomputable def BDWModel.survivor (t : ℕ) (α β c : ℝ) : ℝ :=
  Real.exp (Real.log (Real.Gamma (α + β)) + Real.log (Real.Gamma (β + ((t : ℝ) + 1) ^ c))
    - Real.log (Real.Gamma β) - Real.log (Real.Gamma (α + β + ((t : ℝ) + 1) ^ c)))

/-- BDW generate_probabilities(periods, params): the body of the Python method
is survival_rates applied to predicted_survival(periods, params), the latter
inlined here as the list of survivor values (the structure literal below
cannot name itself). -/
noncomputable def BDWModel.generate_probabilities (periods : ℕ) (α β c : ℝ) : List ℝ :=
  LTVModel.survival_rates ((List.range periods).map (fun i => BDWModel.survivor i α β c))

/-- The BDW model packaged against the abstract interface; the Python
method unpacks alpha, beta, c = params. -/
noncomputable def BDWModel.model : LTVModel where
  survivor := fun t params =>
    BDWModel.survivor t (params.getD 0 0) (params.getD 1 0) (params.getD 2 0)
  generate_probabilities := fun periods params =>
    LTVModel.survival_rates ((List.range periods).map (fun i =>
      BDWModel.survivor i (params.getD 0 0) (params.getD 1 0) (params.getD 2 0)))

/-- Auxiliary closed form used only in proofs: the product over k < n of
(beta + k) / (alpha + beta + k), the survivor value of the SBG sequence after
n periods. Not part of the source; introduced to reason about sbg_p. -/
noncomputable def sbgTailProd (α β : ℝ) : ℕ → ℝ
  | 0 => 1
  | n + 1 => sbgTailProd α β n * ((β + (n : ℝ)) / (α + β + (n : ℝ)))

/-! ## Helper lemmas -/

theorem list_range_map_sum (f : ℕ → ℝ) (n : ℕ) :
    ((List.range n).map f).sum = ∑ i in Finset.range n, f i := by
  induction n with
  | zero => simp
  | succ n ih =>
      rw [List.range_succ, List.map_append, List.sum_append, Finset.sum_range_succ, ih]
      simp

theorem survival_rates_length (l : List ℝ) (h : l ≠ []) :
    (LTVModel.survival_rates l).length = l.length := by
  cases l with
  | nil => exact absurd rfl h
  | cons d ds =>
      simp only [LTVModel.survival_rates, List.length_cons, List.tail_cons, List.length_zipWith]
      omega

/-! ## Claim theorems -/

/-- C7: on a flat input whose first element is greater than 1, preprocess
divides every element by the first and drops the leading entry, sending
[733, 379, 282, 225] to [379/733, 282/733, 225/733]; on a first element
equal to 1 it drops the leading entry; otherwise it returns the input
unchanged. -/
theorem preprocess_flat_cases (d : ℝ) (rest : List ℝ) :
    (1 < d → LTVModel.preprocess_flat (d :: rest) = rest.map (fun x => x / d))
    ∧ (d = 1 → LTVModel.preprocess_flat (d :: rest) = rest)
    ∧ (¬ 1 < d → d ≠ 1 → LTVModel.preprocess_flat (d :: rest) = d :: rest)
    ∧ LTVModel.preprocess_flat [733, 379, 282, 225] = [379 / 733, 282 / 733, 225 / 733] := by
  refine ⟨?_, ?_, ?_, ?_⟩
  · intro h
    unfold LTVModel.preprocess_flat
    rw [if_pos (show (1 : ℝ) < (d :: rest).headI from h)]
    simp
  · intro h
    subst h
    norm_num [LTVModel.preprocess_flat]
  · intro h1 h2
    unfold LTVModel.preprocess_flat
    rw [if_neg (show ¬ (1 : ℝ) < (d :: rest).headI from h1),
      if_neg (show ¬ (d :: rest).headI = 1 from h2)]
  · norm_num [LTVModel.preprocess_flat, List.map]

theorem preprocess_flat_witness :
    (1 : ℝ) < 2 ∧ LTVModel.preprocess_flat [2, 1] = ([1] : List ℝ).map (fun x => x / 2) :=
  ⟨by norm_num, (preprocess_flat_cases 2 [1]).1 (by norm_num)⟩

/-- C9: when any component of the parameter vector is non-positive, both
likelihood objectives return the sentinel -1000 for every model, every data
argument and every precomputed-survivors argument (in particular the result
does not depend on the model's probability or survivor functions). -/
theorem likelihood_sentinel (M : LTVModel) (params : List ℝ) (data : List ℝ)
    (cohorts : List (List ℝ)) (sv : Option (List ℝ))
    (h : ∃ p ∈ params, p ≤ 0) :
    M.log_likelihood params data sv = -1000
    ∧ M.log_likelihood_multi_cohort params cohorts = -1000 := by
  constructor
  · unfold LTVModel.log_likelihood
    rw [if_pos h]
  · unfold LTVModel.log_likelihood_multi_cohort
    rw [if_pos h]

theorem likelihood_sentinel_witness :
    SBGModel.model.log_likelihood [-1, 2] [0.8] none = -1000
    ∧ SBGModel.model.log_likelihood_multi_cohort [-1, 2] [[5, 3]] = -1000 :=
  likelihood_sentinel SBGModel.model [-1, 2] [0.8] [[5, 3]] none
    ⟨-1, by simp, by norm_num⟩

/-- C1: for every model, all-positive parameters and non-empty data, the
single-cohort log-likelihood with no precomputed survivors equals the sum over
t below len(data) of survival_rates(data)[t] times the log of
generate_probabilities(len(data), params)[t], plus the right-censoring term
data[len(data)-1] times the log of survivor(len(data)-1, params). -/
theorem log_likelihood_formula (M : LTVModel) (params : List ℝ) (data : List ℝ)
    (hpos : ∀ p ∈ params, 0 < p) (hdata : data ≠ []) :
    M.log_likelihood params data none =
      (∑ t in Finset.range data.length,
        (LTVModel.survival_rates data).getD t 0
          * Real.log ((M.generate_probabilities data.length params).getD t 0))
      + data.getLastD 0 * Real.log (M.survivor (data.length - 1) params) := by
  have hg : ¬ ∃ p ∈ params, p ≤ 0 := by
    rintro ⟨p, hp, hle⟩
    exact absurd (hpos p hp) (not_lt.mpr hle)
  unfold LTVModel.log_likelihood
  rw [if_neg hg]
  simp only [Option.getD_none]
  rw [survival_rates_length data hdata, list_range_map_sum]

theorem log_likelihood_formula_witness :
    (∀ p ∈ ([1, 1] : List ℝ), 0 < p) ∧
    SBGModel.model.log_likelihood [1, 1] [0.8] none =
      (∑ t in Finset.range ([0.8] : List ℝ).length,
        (LTVModel.survival_rates [0.8]).getD t 0
          * Real.log ((SBGModel.model.generate_probabilities ([0.8] : List ℝ).length [1, 1]).getD t 0))
      + ([0.8] : List ℝ).getLastD 0
        * Real.log (SBGModel.model.survivor (([0.8] : List ℝ).length - 1) [1, 1]) :=
  ⟨by intro p hp; simp only [List.mem_cons, List.not_mem_nil, or_false] at hp
      rcases hp with h | h <;> (rw [h]; norm_num),
   log_likelihood_formula SBGModel.model [1, 1] [0.8]
    (by intro p hp; simp only [List.mem_cons, List.not_mem_nil, or_false] at hp
        rcases hp with h | h <;> (rw [h]; norm_num))
    (by simp)⟩

/-- C2: for every model and all-positive parameters, the multi-cohort
log-likelihood equals the sum over cohorts i of the sum over j below
len(cohort_i) - 1 of (cohort_i[j] - cohort_i[j+1]) times the log of
probabilities[j], plus cohort_i[last] times the log of
survivor(n - i - 1, params), where n is the number of cohorts and
probabilities is generate_probabilities(len(data[0]), params), the first
cohort's period count, in every summand. -/
theorem log_likelihood_multi_cohort_formula (M : LTVModel) (params : List ℝ)
    (data : List (List ℝ)) (hpos : ∀ p ∈ params, 0 < p) :
    M.log_likelihood_multi_cohort params data =
      ∑ i in Finset.range data.length,
        ((∑ j in Finset.range ((data.getD i []).length - 1),
          ((data.getD i []).getD j 0 - (data.getD i []).getD (j + 1) 0)
            * Real.log ((M.generate_probabilities (data.headI).length params).getD j 0))
        + (data.getD i []).getLastD 0
          * Real.log (M.survivor (data.length - i - 1) params)) := by
  have hg : ¬ ∃ p ∈ params, p ≤ 0 := by
    rintro ⟨p, hp, hle⟩
    exact absurd (hpos p hp) (not_lt.mpr hle)
  unfold LTVModel.log_likelihood_multi_cohort
  rw [if_neg hg, list_range_map_sum]
  exact Finset.sum_congr rfl (fun i _ => by rw [list_range_map_sum])

theorem log_likelihood_multi_cohort_formula_witness :
    (∀ p ∈ ([1, 1] : List ℝ), 0 < p) ∧
    SBGModel.model.log_likelihood_multi_cohort [1, 1] [[5, 3]] =
      ∑ i in Finset.range ([[5, 3]] : List (List ℝ)).length,
        ((∑ j in Finset.range ((([[5, 3]] : List (List ℝ)).getD i []).length - 1),
          ((([[5, 3]] : List (List ℝ)).getD i []).getD j 0
              - (([[5, 3]] : List (List ℝ)).getD i []).getD (j + 1) 0)
            * Real.log ((SBGModel.model.generate_probabilities
                (([[5, 3]] : List (List ℝ)).headI).length [1, 1]).getD j 0))
        + (([[5, 3]] : List (List ℝ)).getD i []).getLastD 0
          * Real.log (SBGModel.model.survivor (([[5, 3]] : List (List ℝ)).length - i - 1) [1, 1])) :=
  ⟨by intro p hp; simp only [List.mem_cons, List.not_mem_nil, or_false] at hp
      rcases hp with h | h <;> (rw [h]; norm_num),
   log_likelihood_multi_cohort_formula SBGModel.model [1, 1] [[5, 3]]
    (by intro p hp; simp only [List.mem_cons, List.not_mem_nil, or_false] at hp
        rcases hp with h | h <;> (rw [h]; norm_num))⟩

theorem sbgTailProd_pos (α β : ℝ) (hα : 0 < α) (hβ : 0 < β) (n : ℕ) :
    0 < sbgTailProd α β n := by
  induction n with
  | zero => norm_num [sbgTailProd]
  | succ n ih =>
      rw [sbgTailProd]
      have h1 : (0 : ℝ) < β + n := by positivity
      have h2 : (0 : ℝ) < α + β + n := by positivity
      exact mul_pos ih (div_pos h1 h2)

theorem sbg_p_eq (α β : ℝ) (hα : 0 < α) (hβ : 0 < β) (n : ℕ) :
    sbg_p α β n = sbgTailProd α β n * (α / (α + β + n)) := by
  induction n with
  | zero => simp [sbg_p, sbgTailProd]
  | succ n ih =>
      have h2 : (0 : ℝ) < α + β + n := by positivity
      have h3 : (0 : ℝ) < α + β + ((n : ℝ) + 1) := by positivity
      have h2' := h2.ne'
      have h3' := h3.ne'
      rw [sbg_p, ih, sbgTailProd]
      push_cast
      field_simp
      ring

theorem sbg_p_pos (α β : ℝ) (hα : 0 < α) (hβ : 0 < β) (n : ℕ) :
    0 < sbg_p α β n := by
  rw [sbg_p_eq α β hα hβ n]
  have hq := sbgTailProd_pos α β hα hβ n
  have h2 : (0 : ℝ) < α + β + n := by positivity
  exact mul_pos hq (div_pos hα h2)

theorem sbg_sum_eq (α β : ℝ) (hα : 0 < α) (hβ : 0 < β) (n : ℕ) :
    ((List.range n).map (sbg_p α β)).sum = 1 - sbgTailProd α β n := by
  induction n with
  | zero => simp [sbgTailProd]
  | succ n ih =>
      rw [List.range_succ, List.map_append, List.sum_append, ih]
      simp only [List.map_cons, List.map_nil, List.sum_cons, List.sum_nil]
      rw [sbg_p_eq α β hα hβ n, sbgTailProd]
      have h2 : (0 : ℝ) < α + β + n := by positivity
      have h2' := h2.ne'
      field_simp
      ring

theorem sbg_survivor_eq (α β : ℝ) (hα : 0 < α) (hβ : 0 < β) (t : ℕ) :
    SBGModel.survivor t α β = sbgTailProd α β (t + 1) := by
  unfold SBGModel.survivor SBGModel.generate_probabilities
  rw [max_eq_left (by omega : 1 ≤ t + 1), sbg_sum_eq α β hα hβ (t + 1)]
  ring

/-- C3: for strictly positive alpha and beta (in particular everywhere inside
the declared bounds) and periods at least 1, every entry of the SBG
churn-probability sequence is non-negative and the sum of the whole sequence
never exceeds 1. -/
theorem sbg_probabilities_nonneg_sum_le_one (α β : ℝ) (hα : 0 < α) (hβ : 0 < β)
    (periods : ℕ) (hp : 1 ≤ periods) :
    (∀ x ∈ SBGModel.generate_probabilities periods α β, 0 ≤ x)
    ∧ (SBGModel.generate_probabilities periods α β).sum ≤ 1 := by
  have hmax : max periods 1 = periods := max_eq_left hp
  constructor
  · intro x hx
    unfold SBGModel.generate_probabilities at hx
    rw [List.mem_map] at hx
    obtain ⟨t, -, rfl⟩ := hx
    exact (sbg_p_pos α β hα hβ t).le
  · unfold SBGModel.generate_probabilities
    rw [hmax, sbg_sum_eq α β hα hβ periods]
    have hq := sbgTailProd_pos α β hα hβ periods
    linarith

theorem sbg_probabilities_nonneg_sum_le_one_witness :
    (∀ x ∈ SBGModel.generate_probabilities 3 1 1, 0 ≤ x)
    ∧ (SBGModel.generate_probabilities 3 1 1).sum ≤ 1 :=
  sbg_probabilities_nonneg_sum_le_one 1 1 one_pos one_pos 3 (by norm_num)

theorem convexOn_increment {f : ℝ → ℝ} (hf : ConvexOn ℝ (Set.Ioi 0) f)
    {a b δ : ℝ} (ha : 0 < a) (hab : a ≤ b) (hδ : 0 < δ) :
    f (a + δ) - f a ≤ f (b + δ) - f b := by
  have hb : 0 < b := lt_of_lt_of_le ha hab
  have haδ : 0 < a + δ := by linarith
  have hbδ : 0 < b + δ := by linarith
  have h1 := hf.secant_mono (Set.mem_Ioi.mpr ha) (Set.mem_Ioi.mpr haδ) (Set.mem_Ioi.mpr hbδ)
    (ne_of_gt (show a < a + δ by linarith)) (ne_of_gt (show a < b + δ by linarith))
    (show a + δ ≤ b + δ by linarith)
  have h2 := hf.secant_mono (Set.mem_Ioi.mpr hbδ) (Set.mem_Ioi.mpr ha) (Set.mem_Ioi.mpr hb)
    (ne_of_lt (show a < b + δ by linarith)) (ne_of_lt (show b < b + δ by linarith)) hab
  rw [(show a + δ - a = δ by ring)] at h1
  rw [(show a - (b + δ) = -(b + δ - a) by ring),
    (show f a - f (b + δ) = -(f (b + δ) - f a) by ring), neg_div_neg_eq] at h2
  rw [(show b - (b + δ) = -δ by ring),
    (show f b - f (b + δ) = -(f (b + δ) - f b) by ring), neg_div_neg_eq] at h2
  exact (div_le_div_iff_of_pos_right hδ).mp (h1.trans h2)

/-- C4: for both the SBG and the BDW model, with strictly positive parameters
(in particular everywhere inside the declared bounds), the survivor function is
non-increasing in t, so every predicted survival sequence is non-increasing. -/
theorem survivor_nonincreasing :
    (∀ (α β : ℝ), 0 < α → 0 < β → ∀ t : ℕ,
      SBGModel.survivor (t + 1) α β ≤ SBGModel.survivor t α β)
    ∧ (∀ (α β c : ℝ), 0 < α → 0 < β → 0 < c → ∀ t : ℕ,
      BDWModel.survivor (t + 1) α β c ≤ BDWModel.survivor t α β c) := by
  constructor
  · intro α β hα hβ t
    rw [sbg_survivor_eq α β hα hβ, sbg_survivor_eq α β hα hβ, sbgTailProd]
    push_cast
    have hq := sbgTailProd_pos α β hα hβ (t + 1)
    have h2 : (0 : ℝ) < α + β + ((t : ℝ) + 1) := by positivity
    have hr : (β + ((t : ℝ) + 1)) / (α + β + ((t : ℝ) + 1)) ≤ 1 := by
      rw [div_le_one h2]
      linarith
    exact mul_le_of_le_one_right hq.le hr
  · intro α β c hα hβ hc t
    unfold BDWModel.survivor
    rw [Real.exp_le_exp]
    push_cast
    rw [(show (t : ℝ) + 1 + 1 = (t : ℝ) + 2 by ring)]
    have hb1 : (0 : ℝ) < (t : ℝ) + 1 := by positivity
    have hu : (0 : ℝ) < ((t : ℝ) + 1) ^ c := Real.rpow_pos_of_pos hb1 c
    have huv : ((t : ℝ) + 1) ^ c < ((t : ℝ) + 2) ^ c :=
      Real.rpow_lt_rpow hb1.le (by linarith) hc
    have hδ : (0 : ℝ) < ((t : ℝ) + 2) ^ c - ((t : ℝ) + 1) ^ c := by linarith
    have key := convexOn_increment Real.convexOn_log_Gamma
      (show (0 : ℝ) < β + ((t : ℝ) + 1) ^ c by linarith)
      (show β + ((t : ℝ) + 1) ^ c ≤ α + β + ((t : ℝ) + 1) ^ c by linarith) hδ
    rw [(show β + ((t : ℝ) + 1) ^ c + (((t : ℝ) + 2) ^ c - ((t : ℝ) + 1) ^ c)
          = β + ((t : ℝ) + 2) ^ c by ring),
      (show α + β + ((t : ℝ) + 1) ^ c + (((t : ℝ) + 2) ^ c - ((t : ℝ) + 1) ^ c)
          = α + β + ((t : ℝ) + 2) ^ c by ring)] at key
    simp only [Function.comp_apply] at key
    linarith [key]

theorem survivor_nonincreasing_witness :
    SBGModel.survivor 1 1 1 ≤ SBGModel.survivor 0 1 1
    ∧ BDWModel.survivor 1 1 1 1 ≤ BDWModel.survivor 0 1 1 1 :=
  ⟨survivor_nonincreasing.1 1 1 one_pos one_pos 0,
   survivor_nonincreasing.2 1 1 1 one_pos one_pos one_pos 0⟩

theorem zipWith_sub_map_range (f : ℕ → ℝ) (n : ℕ) :
    List.zipWith (fun a b => a - b) ((List.range (n + 1)).map f)
        (((List.range (n + 1)).map f).tail)
      = (List.range n).map (fun i => f i - f (i + 1)) := by
  apply List.ext_getElem
  · simp only [List.length_zipWith, List.length_tail, List.length_map, List.length_range]
    omega
  · intro i h1 h2
    simp only [List.getElem_zipWith, List.getElem_map, List.getElem_range, List.getElem_tail]

theorem map_range_headI (f : ℕ → ℝ) (n : ℕ) :
    ((List.range (n + 1)).map f).headI = f 0 := by
  rw [List.range_succ_eq_map]
  simp

theorem survival_rates_map_range (f : ℕ → ℝ) (n : ℕ) :
    LTVModel.survival_rates ((List.range (n + 1)).map f)
      = (1 - f 0) :: (List.range n).map (fun i => f i - f (i + 1)) := by
  unfold LTVModel.survival_rates
  rw [map_range_headI, zipWith_sub_map_range]

theorem sbg_survivor_sum (α β : ℝ) (t : ℕ) :
    SBGModel.survivor t α β = 1 - ((List.range (t + 1)).map (sbg_p α β)).sum := by
  unfold SBGModel.survivor SBGModel.generate_probabilities
  rw [max_eq_left (by omega : 1 ≤ t + 1)]

theorem sbg_survivor_diff (α β : ℝ) (i : ℕ) :
    SBGModel.survivor i α β - SBGModel.survivor (i + 1) α β = sbg_p α β (i + 1) := by
  rw [sbg_survivor_sum α β i, sbg_survivor_sum α β (i + 1)]
  nth_rewrite 2 [List.range_succ]
  rw [List.map_append, List.sum_append]
  simp only [List.map_cons, List.map_nil, List.sum_cons, List.sum_nil]
  ring

/-- C5: for both the SBG and the BDW model, applying survival_rates to the
predicted survival curve of n periods recovers exactly (in real arithmetic)
the churn-probability sequence generate_probabilities(n, params), for every
n at least 1 and every real parameter vector, in particular throughout the
declared bounds. -/
theorem survival_rates_roundtrip :
    (∀ (n : ℕ), 1 ≤ n → ∀ (α β : ℝ),
      LTVModel.survival_rates (SBGModel.model.predicted_survival n [α, β])
        = SBGModel.model.generate_probabilities n [α, β])
    ∧ (∀ (n : ℕ) (α β c : ℝ),
      LTVModel.survival_rates (BDWModel.model.predicted_survival n [α, β, c])
        = BDWModel.model.generate_probabilities n [α, β, c]) := by
  constructor
  · intro n hn α β
    obtain ⟨m, rfl⟩ : ∃ m, n = m + 1 := ⟨n - 1, by omega⟩
    have hsurv : ∀ i : ℕ, SBGModel.model.survivor i [α, β] = SBGModel.survivor i α β := by
      intro i
      simp [SBGModel.model]
    have hgen : SBGModel.model.generate_probabilities (m + 1) [α, β]
        = (List.range (m + 1)).map (sbg_p α β) := by
      simp [SBGModel.model, SBGModel.generate_probabilities,
        max_eq_left (show 1 ≤ m + 1 by omega)]
    rw [hgen]
    unfold LTVModel.predicted_survival
    rw [List.map_congr_left (fun i _ => hsurv i), survival_rates_map_range,
      List.range_succ_eq_map, List.map_cons, List.map_map]
    congr 1
    · rw [sbg_survivor_sum, show List.range 1 = [0] from rfl]
      simp
    · apply List.map_congr_left
      intro i _
      simpa using sbg_survivor_diff α β i
  · intro n α β c
    rfl

theorem survival_rates_roundtrip_witness :
    LTVModel.survival_rates (SBGModel.model.predicted_survival 1 [1, 1])
      = SBGModel.model.generate_probabilities 1 [1, 1]
    ∧ LTVModel.survival_rates (BDWModel.model.predicted_survival 2 [1, 1, 1])
      = BDWModel.model.generate_probabilities 2 [1, 1, 1] :=
  ⟨survival_rates_roundtrip.1 1 (le_refl 1) 1 1,
   survival_rates_roundtrip.2 2 1 1 1⟩

theorem not_np_isclose_of_far (a b : ℝ) (hb : 0 ≤ b)
    (h : 1e-8 + 1e-5 * b < a - b ∨ 1e-8 + 1e-5 * b < b - a) : ¬ np_isclose a b := by
  intro hc
  unfold np_isclose at hc
  rw [abs_of_nonneg hb] at hc
  have h1 := le_abs_self (a - b)
  have h2 : b - a ≤ |a - b| := by
    rw [abs_sub_comm]
    exact le_abs_self (b - a)
  rcases h with h | h <;> linarith

theorem sbg_not_close_23 :
    ¬ ∃ i < SBGModel.bounds.length,
        np_isclose (([2, 3] : List ℝ).getD i 0) (SBGModel.bounds.getD i (0, 0)).1
          ∨ np_isclose (([2, 3] : List ℝ).getD i 0) (SBGModel.bounds.getD i (0, 0)).2 := by
  rintro ⟨i, hi, hcl⟩
  simp only [SBGModel.bounds, List.length_cons, List.length_nil] at hi
  interval_cases i <;>
    simp only [SBGModel.bounds, List.getD_cons_zero, List.getD_cons_succ] at hcl <;>
    rcases hcl with h | h <;>
    exact not_np_isclose_of_far _ _ (by norm_num) (by norm_num) h

/-- C6: whenever the external bounded minimizer reports a non-zero exit status
or any component of the fitted vector is numerically close to its lower or
upper bound, fit raises an optimization-failure error and never returns a
result (the hypothesis that preprocessing succeeds isolates the optimizer
validation from data-shape IndexErrors). -/
theorem fit_error_on_failure (M : LTVModel) (param_names : List String)
    (bounds : List (ℝ × ℝ)) (data : DataInput) (periods : ℤ) (res : OptimizeResult)
    (hpre : ∃ d, LTVModel.preprocess_data data = Except.ok d)
    (hbad : res.status ≠ 0 ∨ ∃ i < bounds.length,
        np_isclose (res.x.getD i 0) (bounds.getD i (0, 0)).1
          ∨ np_isclose (res.x.getD i 0) (bounds.getD i (0, 0)).2) :
    M.fit_from param_names bounds data periods res = Except.error boundFailMsg
    ∨ M.fit_from param_names bounds data periods res = Except.error statusFailMsg := by
  obtain ⟨d, hd⟩ := hpre
  by_cases hc : ∃ i < bounds.length,
      np_isclose (res.x.getD i 0) (bounds.getD i (0, 0)).1
        ∨ np_isclose (res.x.getD i 0) (bounds.getD i (0, 0)).2
  · left
    simp only [LTVModel.fit_from, hd, LTVModel.optimize_check, if_pos hc]
  · rcases hbad with hs | hcl
    · right
      simp only [LTVModel.fit_from, hd, LTVModel.optimize_check, if_neg hc, if_pos hs]
    · exact absurd hcl hc

theorem fit_error_on_failure_witness :
    (∃ d, LTVModel.preprocess_data (DataInput.flat [0.8, 0.65]) = Except.ok d)
    ∧ (LTVModel.fit_from SBGModel.model SBGModel.param_names SBGModel.bounds
          (DataInput.flat [0.8, 0.65]) 52 ⟨[2, 3], 1, 5⟩ = Except.error boundFailMsg
      ∨ LTVModel.fit_from SBGModel.model SBGModel.param_names SBGModel.bounds
          (DataInput.flat [0.8, 0.65]) 52 ⟨[2, 3], 1, 5⟩ = Except.error statusFailMsg) :=
  ⟨⟨DataInput.flat (LTVModel.preprocess_flat [0.8, 0.65]), rfl⟩,
   fit_error_on_failure SBGModel.model SBGModel.param_names SBGModel.bounds
    (DataInput.flat [0.8, 0.65]) 52 ⟨[2, 3], 1, 5⟩
    ⟨DataInput.flat (LTVModel.preprocess_flat [0.8, 0.65]), rfl⟩
    (Or.inl (by decide))⟩

/-- C8: for every call of fit that returns successfully with periods at
least 1, whatever shape the preprocessed data has (single-cohort or
multi-cohort), and given the minimizer contract that the fitted vector has
one entry per declared parameter name and that the reported final objective
value is the objective built by optimize evaluated at the fitted vector: the
returned mapping pairs each declared parameter name with its fitted value,
its retention curve has length periods + 1, starts with exactly 1 and
continues with predicted_survival(periods, fitted params), and its loss is
the negative log-likelihood at the optimum, spelled out for both the
single-cohort and the multi-cohort objective. -/
theorem fit_ok_shape (M : LTVModel) (param_names : List String)
    (bounds : List (ℝ × ℝ)) (data : DataInput) (pdata : DataInput) (periods : ℤ)
    (res : OptimizeResult) (r : FitResult)
    (hok : M.fit_from param_names bounds data periods res = Except.ok r)
    (hpre : LTVModel.preprocess_data data = Except.ok pdata)
    (hlen : res.x.length = param_names.length)
    (hper : 1 ≤ periods)
    (hfun : res.fun_val = M.optimize_objective pdata res.x) :
    r.params.map Prod.fst = param_names
    ∧ r.params.map Prod.snd = res.x
    ∧ (r.retention_curve.length : ℤ) = periods + 1
    ∧ r.retention_curve.headI = 1
    ∧ r.retention_curve.tail = M.predicted_survival periods.toNat res.x
    ∧ r.loss = M.optimize_objective pdata res.x
    ∧ (∀ dd, pdata = DataInput.flat dd →
        r.loss = -(M.log_likelihood res.x dd (some (LTVModel.survival_rates dd))))
    ∧ (∀ ds, pdata = DataInput.nested ds →
        r.loss = -(M.log_likelihood_multi_cohort res.x ds)) := by
  unfold LTVModel.fit_from at hok
  rw [hpre] at hok
  unfold LTVModel.optimize_check at hok
  by_cases hc : ∃ i < bounds.length,
      np_isclose (res.x.getD i 0) (bounds.getD i (0, 0)).1
        ∨ np_isclose (res.x.getD i 0) (bounds.getD i (0, 0)).2
  · rw [if_pos hc] at hok
    exact Except.noConfusion hok
  · rw [if_neg hc] at hok
    have hok2 : (if res.status ≠ 0
        then (Except.error statusFailMsg : Except String FitResult)
        else Except.ok
          { params := param_names.zip res.x,
            retention_curve := 1 :: M.predicted_survival periods.toNat res.x,
            loss := res.fun_val }) = Except.ok r := hok
    by_cases hst : res.status ≠ 0
    · rw [if_pos hst] at hok2
      exact Except.noConfusion hok2
    · rw [if_neg hst] at hok2
      have hr := Except.ok.inj hok2
      subst hr
      refine ⟨?_, ?_, ?_, ?_, ?_, ?_, ?_, ?_⟩
      · exact List.map_fst_zip param_names res.x (le_of_eq hlen.symm)
      · exact List.map_snd_zip param_names res.x (le_of_eq hlen)
      · simp only [List.length_cons, LTVModel.predicted_survival, List.length_map,
          List.length_range]
        push_cast
        omega
      · rfl
      · rfl
      · exact hfun
      · intro dd hdd
        subst hdd
        simp only [LTVModel.optimize_objective] at hfun
        exact hfun
      · intro ds hds
        subst hds
        simp only [LTVModel.optimize_objective] at hfun
        exact hfun

theorem fit_from_ok_concrete_eval :
    LTVModel.fit_from SBGModel.model SBGModel.param_names SBGModel.bounds
        (DataInput.nested [[733, 379], [519, 286]]) 52
        ⟨[2, 3], 0,
          SBGModel.model.optimize_objective
            (DataInput.nested [[733, 379], [519, 286]]) [2, 3]⟩
      = Except.ok
        { params := [("alpha", 2), ("beta", 3)],
          retention_curve := 1 :: SBGModel.model.predicted_survival 52 [2, 3],
          loss := SBGModel.model.optimize_objective
            (DataInput.nested [[733, 379], [519, 286]]) [2, 3] } := by
  have hoc : LTVModel.optimize_check SBGModel.bounds
      ⟨[2, 3], 0,
        SBGModel.model.optimize_objective
          (DataInput.nested [[733, 379], [519, 286]]) [2, 3]⟩
      = Except.ok
        ⟨[2, 3], 0,
          SBGModel.model.optimize_objective
            (DataInput.nested [[733, 379], [519, 286]]) [2, 3]⟩ := by
    unfold LTVModel.optimize_check
    exact if_neg sbg_not_close_23
  simp only [LTVModel.fit_from,
    (show LTVModel.preprocess_data (DataInput.nested [[733, 379], [519, 286]])
        = Except.ok (DataInput.nested [[733, 379], [519, 286]]) from rfl), hoc]
  rfl

theorem fit_ok_shape_witness :
    List.map Prod.fst (FitResult.params
        { params := [("alpha", 2), ("beta", 3)],
          retention_curve := 1 :: SBGModel.model.predicted_survival 52 [2, 3],
          loss := SBGModel.model.optimize_objective
            (DataInput.nested [[733, 379], [519, 286]]) [2, 3] }) = SBGModel.param_names
    ∧ List.map Prod.snd (FitResult.params
        { params := [("alpha", 2), ("beta", 3)],
          retention_curve := 1 :: SBGModel.model.predicted_survival 52 [2, 3],
          loss := SBGModel.model.optimize_objective
            (DataInput.nested [[733, 379], [519, 286]]) [2, 3] }) = [2, 3]
    ∧ (List.length (FitResult.retention_curve
        { params := [("alpha", 2), ("beta", 3)],
          retention_curve := 1 :: SBGModel.model.predicted_survival 52 [2, 3],
          loss := SBGModel.model.optimize_objective
            (DataInput.nested [[733, 379], [519, 286]]) [2, 3] }) : ℤ) = 52 + 1
    ∧ List.headI (FitResult.retention_curve
        { params := [("alpha", 2), ("beta", 3)],
          retention_curve := 1 :: SBGModel.model.predicted_survival 52 [2, 3],
          loss := SBGModel.model.optimize_objective
            (DataInput.nested [[733, 379], [519, 286]]) [2, 3] }) = 1
    ∧ List.tail (FitResult.retention_curve
        { params := [("alpha", 2), ("beta", 3)],
          retention_curve := 1 :: SBGModel.model.predicted_survival 52 [2, 3],
          loss := SBGModel.model.optimize_objective
            (DataInput.nested [[733, 379], [519, 286]]) [2, 3] })
        = SBGModel.model.predicted_survival (52 : ℤ).toNat [2, 3]
    ∧ FitResult.loss
        { params := [("alpha", 2), ("beta", 3)],
          retention_curve := 1 :: SBGModel.model.predicted_survival 52 [2, 3],
          loss := SBGModel.model.optimize_objective
            (DataInput.nested [[733, 379], [519, 286]]) [2, 3] }
        = SBGModel.model.optimize_objective
            (DataInput.nested [[733, 379], [519, 286]]) [2, 3]
    ∧ FitResult.loss
        { params := [("alpha", 2), ("beta", 3)],
          retention_curve := 1 :: SBGModel.model.predicted_survival 52 [2, 3],
          loss := SBGModel.model.optimize_objective
            (DataInput.nested [[733, 379], [519, 286]]) [2, 3] }
        = -(SBGModel.model.log_likelihood_multi_cohort [2, 3] [[733, 379], [519, 286]]) := by
  have H := fit_ok_shape SBGModel.model SBGModel.param_names SBGModel.bounds
    (DataInput.nested [[733, 379], [519, 286]]) (DataInput.nested [[733, 379], [519, 286]]) 52
    ⟨[2, 3], 0,
      SBGModel.model.optimize_objective
        (DataInput.nested [[733, 379], [519, 286]]) [2, 3]⟩
    _ fit_from_ok_concrete_eval rfl rfl (by decide) rfl
  exact ⟨H.1, H.2.1, H.2.2.1, H.2.2.2.1, H.2.2.2.2.1, H.2.2.2.2.2.1,
    H.2.2.2.2.2.2.2 [[733, 379], [519, 286]] rfl⟩

theorem fit_from_periods_zero_eval :
    LTVModel.fit_from SBGModel.model SBGModel.param_names SBGModel.bounds
        (DataInput.flat [0.8, 0.65]) 0 ⟨[2, 3], 0, 5⟩
      = Except.ok { params := [("alpha", 2), ("beta", 3)],
                    retention_curve := [1], loss := 5 } := by
  have hoc : LTVModel.optimize_check SBGModel.bounds ⟨[2, 3], 0, 5⟩
      = Except.ok ⟨[2, 3], 0, 5⟩ := by
    unfold LTVModel.optimize_check
    exact if_neg sbg_not_close_23
  simp only [LTVModel.fit_from, LTVModel.preprocess_data, hoc]
  rfl

/-- C10 as stated fails on the code: periods is never validated. With
periods = 0 (which is not positive), well-formed data and a successful
minimizer result, fit runs to completion and returns a result instead of
failing fast before optimization. -/
theorem fit_no_periods_validation :
    ∃ r : FitResult,
      LTVModel.fit_from SBGModel.model SBGModel.param_names SBGModel.bounds
          (DataInput.flat [0.8, 0.65]) 0 ⟨[2, 3], 0, 5⟩ = Except.ok r :=
  ⟨_, fit_from_periods_zero_eval⟩

/-- C10 amended: empty data does fail fast, with the index error raised while
preprocessing accesses data[0], before any optimization; and fit never
returns a partial result (every returned value is a fully assembled
FitResult). But periods is not validated: for periods <= 0, whenever fit
returns at all it returns normally, with the degenerate one-entry retention
curve [1]. -/
theorem fit_empty_data_fails_periods_unchecked :
    (∀ (M : LTVModel) (pn : List String) (bounds : List (ℝ × ℝ)) (periods : ℤ)
        (res : OptimizeResult),
      M.fit_from pn bounds (DataInput.flat []) periods res = Except.error indexErrMsg
      ∧ M.fit_from pn bounds (DataInput.nested []) periods res = Except.error indexErrMsg)
    ∧ (∀ (M : LTVModel) (pn : List String) (bounds : List (ℝ × ℝ)) (data : DataInput)
        (periods : ℤ) (res : OptimizeResult) (r : FitResult),
      periods ≤ 0 →
      M.fit_from pn bounds data periods res = Except.ok r →
      r.retention_curve = [1]) := by
  constructor
  · intro M pn bounds periods res
    exact ⟨rfl, rfl⟩
  · intro M pn bounds data periods res r hper hok
    unfold LTVModel.fit_from at hok
    cases hpd : LTVModel.preprocess_data data with
    | error e =>
        rw [hpd] at hok
        exact Except.noConfusion hok
    | ok pd =>
        rw [hpd] at hok
        cases hoc : LTVModel.optimize_check bounds res with
        | error e =>
            rw [hoc] at hok
            exact Except.noConfusion hok
        | ok res2 =>
            rw [hoc] at hok
            have hok2 : (if res2.status ≠ 0
                then (Except.error statusFailMsg : Except String FitResult)
                else Except.ok
                  { params := pn.zip res2.x,
                    retention_curve := 1 :: M.predicted_survival periods.toNat res2.x,
                    loss := res2.fun_val }) = Except.ok r := hok
            by_cases hst : res2.status ≠ 0
            · rw [if_pos hst] at hok2
              exact Except.noConfusion hok2
            · rw [if_neg hst] at hok2
              have hr := Except.ok.inj hok2
              rw [← hr, (show periods.toNat = 0 by omega)]
              rfl

theorem fit_empty_data_fails_periods_unchecked_witness :
    (LTVModel.fit_from SBGModel.model SBGModel.param_names SBGModel.bounds
        (DataInput.flat []) 52 ⟨[2, 3], 0, 5⟩ = Except.error indexErrMsg)
    ∧ FitResult.retention_curve
        { params := [("alpha", 2), ("beta", 3)], retention_curve := [1], loss := 5 } = [1] :=
  ⟨(fit_empty_data_fails_periods_unchecked.1 SBGModel.model SBGModel.param_names
      SBGModel.bounds 52 ⟨[2, 3], 0, 5⟩).1,
   fit_empty_data_fails_periods_unchecked.2 SBGModel.model SBGModel.param_names
      SBGModel.bounds (DataInput.flat [0.8, 0.65]) 0 ⟨[2, 3], 0, 5⟩
      { params := [("alpha", 2), ("beta", 3)], retention_curve := [1], loss := 5 }
      (by decide) fit_from_periods_zero_eval⟩
